import Mathlib

/-!
Shallow embedding of the batch NFT minting script (src/PKConverter.js).

The script is a single pipeline: a configuration object `CONFIG`, an
Arweave/Turbo storage client (upload pricing, balance, top-up, upload), a
per-item mint routine (`uploadFile`, `mintSingleNFT`) and a chunked batch
orchestrator (`batchMintNFTs`) whose final promise is terminated by
`.catch(console.error)`.

Modelling choices:
- Winc amounts (upload price, balance, exchange rate) are rationals; the
  JavaScript numeric expressions on them are translated to exact rational
  arithmetic with `Math.ceil` as `Int.ceil`.
- All network interactions of the Turbo client and the ledger client are
  recorded in an event trace (`NetEvent`); the environment `TurboEnv` fixes
  the responses as pure functions of the request, and `Math.random` /
  `generateSigner` are determinized to environment-supplied values (no
  claim depends on the sampled values).
- The filesystem is a record: the key file, the sorted `.json` catalog
  listing (each file paired with the result of `JSON.parse` on its
  content), and the image files abstracted to their byte sizes.  A missing
  file raises the `ENOENT` error `fs` raises in Node.
- `Promise.all` over a chunk is modelled by mapping the per-item task over
  the chunk: the environment answers each request purely, so items are
  independent and the join-all returns one outcome per item.
-/

/-- The process-wide configuration object `CONFIG` (src/PKConverter.js lines 33-42). -/
structure Config where
  KEYPAIR_PATH : String
  METADATA_FOLDER : String
  NETWORK : String
  ROYALTY_PERCENTAGE : Int
  PRIORITY_FEE : Nat
  IS_SIMULATION : Bool
  BATCH_SIZE : Nat
  RPC_URL : String
deriving DecidableEq

/-- The concrete configuration values of the script. -/
def CONFIG : Config where
  KEYPAIR_PATH := "./keypair.json"
  METADATA_FOLDER := "./nfts"
  NETWORK := "mainnet-beta"
  ROYALTY_PERCENTAGE := 5
  PRIORITY_FEE := 50000
  IS_SIMULATION := true
  BATCH_SIZE := 3
  RPC_URL := "https://api.mainnet-beta.solana.com"

/-- A parsed catalog entry (the JSON object `nftConfig` read from one
catalog file).  `attributes` and `royaltyPercentage` are optional fields;
a JavaScript object simply lacks them when the JSON does not supply them. -/
structure NftConfig where
  name : String
  description : String
  imagePath : String
  attributes : Option (List (String × String))
  royaltyPercentage : Option Int
deriving DecidableEq

/-- One element of `metadata.properties.files` (src line 85). -/
structure MetaFile where
  uri : String
  type : String
deriving DecidableEq

/-- The `properties` object of the metadata document (src line 85). -/
structure MetaProperties where
  files : List MetaFile
  category : String
deriving DecidableEq

/-- The metadata document built in `mintSingleNFT` (src lines 80-86). -/
structure Metadata where
  name : String
  description : String
  image : String
  attributes : List (String × String)
  properties : MetaProperties
deriving DecidableEq

/-- The body handed to `turbo.uploadFile`: either an image file buffer
(abstracted to its byte size) or the serialized metadata document. -/
inductive Payload where
  | bytes (size : Nat)
  | doc (m : Metadata)
deriving DecidableEq

/-- One network interaction of the pipeline: the Turbo storage client calls
(`getUploadCosts`, `getBalance`, `getWincForToken`, `topUpWithTokens`,
`uploadFile`) and the ledger submission (`create(...).sendAndConfirm`). -/
inductive NetEvent where
  | getUploadCost (bytes : Nat)
  | getBalance
  | getWincForToken (tokenAmount : Nat)
  | topUp (tokenAmount : Int)
  | upload (payload : Payload) (contentType : String)
  | createAsset (name : String) (uri : String) (basisPoints : Int)
deriving DecidableEq

/-- The per-item result object the script builds: `status: 'simulated'`
(src line 105), `status: 'success'` (src line 122) or `status: 'failed'`
(src line 154). -/
inductive MintOutcome where
  | simulated (name : String) (asset : String)
  | success (name : String) (asset : String) (metadataUri : String)
  | failed (file : String) (error : String)
deriving DecidableEq

/-- The `status` discriminator field of a serialized outcome. -/
def statusOf : MintOutcome → String
  | .simulated _ _ => "simulated"
  | .success _ _ _ => "success"
  | .failed _ _ => "failed"

/-- The storage-network and ledger environment: responses to every request
the pipeline can make, as pure functions of the request, plus the
determinized random values. -/
structure TurboEnv where
  uploadCost : Nat → ℚ
  balance : ℚ
  wincForOneSol : ℚ
  uploadResponse : Payload → String → Except String (Option String)
  createResult : String → String → Int → Except String Unit
  randomSuffix : String
  signerKey : String

/-- The filesystem the script reads: the key file (`none` = missing), the
catalog directory (`none` = missing; otherwise the sorted `.json` listing,
each file paired with the result of parsing its content), and the image
files abstracted to their sizes. -/
structure FS where
  keypair : Option (List Nat)
  catalogDir : Option (List (String × Except String NftConfig))
  images : List (String × Nat)

/-- The message of the `ENOENT` error Node raises for a missing file. -/
def enoent (p : String) : String :=
  "ENOENT: no such file or directory, stat " ++ p

/-- `calculateSize` (src lines 46-48): `fs.statSync(filePath).size`,
throwing `ENOENT` when the file does not exist. -/
def calculateSize (fs : FS) (filePath : String) : Except String Nat :=
  match fs.images.lookup filePath with
  | none => .error (enoent filePath)
  | some size => .ok size

/-- A JavaScript template literal renders `undefined` as the text
`"undefined"`; `upload.id` may be absent. -/
def jsTemplate : Option String → String
  | some s => s
  | none => "undefined"

/-- The top-up amount computed at src line 62:
`Math.ceil((requiredWinc / wincForOneSol) * 1_000_000_000)` lamports. -/
def topUpAmount (requiredWinc wincForOneSol : ℚ) : Int :=
  Int.ceil (requiredWinc / wincForOneSol * 1000000000)

/-- `uploadFile` (src lines 50-73).  Simulation mode returns a placeholder
URI at once.  Live mode stats and reads the file, runs the dynamic top-up
logic (price and balance query, conditional top-up), performs the upload
tagged with its content type, and returns `https://arweave.net/<id>`. -/
def uploadFile (cfg : Config) (env : TurboEnv) (fs : FS)
    (filePath contentType : String) : Except String String × List NetEvent :=
  if cfg.IS_SIMULATION then
    (.ok ("https://arweave.net/simulation_id_" ++ env.randomSuffix), [])
  else
    match calculateSize fs filePath with
    | .error e => (.error e, [])
    | .ok fileSize =>
        let uploadPrice := env.uploadCost fileSize
        let currentBalance := env.balance
        let fundingEvents :=
          if currentBalance < uploadPrice then
            [NetEvent.getWincForToken 1000000000,
             NetEvent.topUp (topUpAmount (uploadPrice - currentBalance) env.wincForOneSol)]
          else []
        let events :=
          [NetEvent.getUploadCost fileSize, NetEvent.getBalance] ++ fundingEvents ++
            [NetEvent.upload (.bytes fileSize) contentType]
        match env.uploadResponse (.bytes fileSize) contentType with
        | .error e => (.error e, events)
        | .ok uploadId => (.ok ("https://arweave.net/" ++ jsTemplate uploadId), events)

/-- The royalty clause of src line 114:
`(nftConfig.royaltyPercentage || CONFIG.ROYALTY_PERCENTAGE) * 100`.
JavaScript `||` falls through to the default on every falsy left operand,
so both an absent field and an explicit `0` yield the default. -/
def royaltyBasisPoints (royaltyPercentage : Option Int) (defaultPercentage : Int) : Int :=
  (match royaltyPercentage with
   | some v => if v = 0 then defaultPercentage else v
   | none => defaultPercentage) * 100

/-- The metadata document of src lines 80-86 (stable key order). -/
def buildMetadata (nftConfig : NftConfig) (imageUrl : String) : Metadata where
  name := nftConfig.name
  description := nftConfig.description
  image := imageUrl
  attributes := nftConfig.attributes.getD []
  properties := { files := [{ uri := imageUrl, type := "image/jpeg" }], category := "image" }

/-- `mintSingleNFT` (src lines 75-123): upload the image through
`uploadFile`, build the metadata document, upload it — in live mode by a
direct `turbo.uploadFile` call (src lines 93-98), with no funding logic —
generate the asset signer, then either return the simulated outcome or
submit the creation transaction and return the success outcome. -/
def mintSingleNFT (cfg : Config) (env : TurboEnv) (fs : FS) (nftConfig : NftConfig) :
    Except String MintOutcome × List NetEvent :=
  match uploadFile cfg env fs nftConfig.imagePath "image/jpeg" with
  | (.error e, tr) => (.error e, tr)
  | (.ok imageUrl, tr1) =>
      let metadata := buildMetadata nftConfig imageUrl
      let step2 : Except String String × List NetEvent :=
        if cfg.IS_SIMULATION then
          (.ok ("https://arweave.net/sim_metadata_" ++ env.randomSuffix), [])
        else
          match env.uploadResponse (.doc metadata) "application/json" with
          | .error e => (.error e, [NetEvent.upload (.doc metadata) "application/json"])
          | .ok uploadId =>
              (.ok ("https://arweave.net/" ++ jsTemplate uploadId),
               [NetEvent.upload (.doc metadata) "application/json"])
      match step2 with
      | (.error e, tr2) => (.error e, tr1 ++ tr2)
      | (.ok metadataUri, tr2) =>
          let assetKey := env.signerKey
          if cfg.IS_SIMULATION then
            (.ok (.simulated nftConfig.name assetKey), tr1 ++ tr2)
          else
            let basisPoints :=
              royaltyBasisPoints nftConfig.royaltyPercentage cfg.ROYALTY_PERCENTAGE
            let createEv := NetEvent.createAsset nftConfig.name metadataUri basisPoints
            match env.createResult nftConfig.name metadataUri basisPoints with
            | .error e => (.error e, tr1 ++ tr2 ++ [createEv])
            | .ok _ => (.ok (.success nftConfig.name assetKey metadataUri),
                        tr1 ++ tr2 ++ [createEv])

/-- The per-item task `chunk.map` creates (src lines 146-156): parse the
catalog file, run `mintSingleNFT`, and catch every error at the item
boundary, converting it into the failed outcome `{file, status:'failed',
error: err.message}`. -/
def mintItem (cfg : Config) (env : TurboEnv) (fs : FS)
    (file : String) (parsed : Except String NftConfig) :
    MintOutcome × List NetEvent :=
  match parsed with
  | .error e => (.failed file e, [])
  | .ok nftData =>
      match mintSingleNFT cfg env fs nftData with
      | (.ok res, tr) => (res, tr)
      | (.error e, tr) => (.failed file e, tr)

/-- The chunking loop of src line 142-143:
`for (let i = 0; i < files.length; i += BATCH_SIZE) slice(i, i + BATCH_SIZE)`.
Modelled for a positive chunk size (at `BATCH_SIZE = 0` the JavaScript
loop never advances). -/
def chunksOf {α : Type} (c : Nat) : List α → List (List α)
  | [] => []
  | x :: xs => (x :: xs.take (c - 1)) :: chunksOf c (xs.drop (c - 1))
termination_by l => l.length
decreasing_by simp; omega

/-- One chunk processed by `Promise.all(chunk.map ...)` (src lines 146-158):
one outcome per chunk element, and the chunk's network events. -/
def processChunk (cfg : Config) (env : TurboEnv) (fs : FS)
    (chunk : List (String × Except String NftConfig)) :
    List MintOutcome × List NetEvent :=
  (chunk.map fun e => (mintItem cfg env fs e.1 e.2).1,
   (chunk.map fun e => (mintItem cfg env fs e.1 e.2).2).flatten)

/-- `batchMintNFTs` (src lines 127-164): read the key file, list the
catalog directory, process it chunk by chunk collecting all outcomes, and
write the collected outcomes as the report.  A missing key file or catalog
directory rejects the whole batch before any chunk runs. -/
def batchMintNFTs (cfg : Config) (env : TurboEnv) (fs : FS) :
    Except String (List MintOutcome) × List NetEvent :=
  match fs.keypair with
  | none => (.error (enoent cfg.KEYPAIR_PATH), [])
  | some _secretKey =>
      match fs.catalogDir with
      | none => (.error (enoent cfg.METADATA_FOLDER), [])
      | some configFiles =>
          let cs := chunksOf cfg.BATCH_SIZE configFiles
          (.ok ((cs.map fun ch => (processChunk cfg env fs ch).1).flatten),
           (cs.map fun ch => (processChunk cfg env fs ch).2).flatten)

/-- The process exit code.  The entry point is
`batchMintNFTs().catch(console.error)` (src line 166): a rejected batch
promise is caught and logged, so the process always terminates normally. -/
def processExitCode (cfg : Config) (env : TurboEnv) (fs : FS) : Nat :=
  match (batchMintNFTs cfg env fs).1 with
  | .ok _ => 0
  | .error _ => 0

/-- Recognizer for `turbo.uploadFile` events. -/
def isUploadEvent : NetEvent → Bool
  | .upload _ _ => true
  | _ => false

/-- Recognizer for `turbo.getUploadCosts` events. -/
def isCostQuery : NetEvent → Bool
  | .getUploadCost _ => true
  | _ => false

/-- Recognizer for `turbo.getBalance` events. -/
def isBalanceQuery : NetEvent → Bool
  | .getBalance => true
  | _ => false

/-- Recognizer for `turbo.topUpWithTokens` events. -/
def isTopUpEvent : NetEvent → Bool
  | .topUp _ => true
  | _ => false

/-- Recognizer for ledger creation events. -/
def isCreateEvent : NetEvent → Bool
  | .createAsset _ _ _ => true
  | _ => false

/-- Spec-side predicate, for refinement comparison, written from the claim
wording: before each real upload the upload price and the current balance
are queried (the scan requires both a price query and a balance query
between consecutive upload events). -/
def fundedUploads : Bool → Bool → List NetEvent → Bool
  | _, sb, NetEvent.getUploadCost _ :: rest => fundedUploads true sb rest
  | sc, _, NetEvent.getBalance :: rest => fundedUploads sc true rest
  | sc, sb, NetEvent.upload _ _ :: rest => sc && sb && fundedUploads false false rest
  | sc, sb, _ :: rest => fundedUploads sc sb rest
  | _, _, [] => true

/-- Spec-side predicate: every upload event in the trace was preceded by a
fresh Funding Manager check. -/
def checkedBeforeEachUpload (tr : List NetEvent) : Bool :=
  fundedUploads false false tr

/-- A demo catalog entry. -/
def demoNft : NftConfig where
  name := "Asset One"
  description := "demo"
  imagePath := "img-a.jpg"
  attributes := none
  royaltyPercentage := none

/-- A demo filesystem: key file present, one well-formed catalog entry,
its image present with size 4. -/
def demoFs : FS where
  keypair := some [1, 2, 3]
  catalogDir := some [("a.json", .ok demoNft)]
  images := [("img-a.jpg", 4)]

/-- A demo environment where the balance already covers every upload and
all network calls succeed. -/
def demoEnv : TurboEnv where
  uploadCost := fun _ => 10
  balance := 100
  wincForOneSol := 2
  uploadResponse := fun _ _ => .ok (some "demoid")
  createResult := fun _ _ _ => .ok ()
  randomSuffix := "r0"
  signerKey := "DEMOKEY"

/-- The live-mode configuration (the script with `IS_SIMULATION: false`). -/
def liveCfg : Config := { CONFIG with IS_SIMULATION := false }

/-- An environment whose upload acknowledgement carries no identifier. -/
def noIdEnv : TurboEnv := { demoEnv with uploadResponse := fun _ _ => .ok none }

/-- An environment with an insufficient balance: price 10, balance 4,
exchange rate 2 winc per SOL. -/
def lowBalanceEnv : TurboEnv := { demoEnv with balance := 4 }

/-- A filesystem with no key file. -/
def noKeyFs : FS where
  keypair := none
  catalogDir := some []
  images := []

/-- A filesystem whose single catalog file does not parse. -/
def badJsonFs : FS where
  keypair := some [1, 2, 3]
  catalogDir := some [("bad.json", .error "Unexpected token u in JSON at position 0")]
  images := []

/-- A filesystem whose single entry references a missing image. -/
def missingImageFs : FS where
  keypair := some [1, 2, 3]
  catalogDir := some [("a.json", .ok demoNft)]
  images := []

/-- A catalog entry with an explicit zero royalty override. -/
def zeroRoyaltyNft : NftConfig := { demoNft with royaltyPercentage := some 0 }

/-- A second demo entry, image distinct from `demoNft`. -/
def demoNftB : NftConfig :=
  { demoNft with name := "Asset Two", imagePath := "img-b.jpg" }

/-- A two-entry catalog listing. -/
def twoEntries : List (String × Except String NftConfig) :=
  [("a.json", .ok demoNft), ("b.json", .ok demoNftB)]

/-- A live-mode filesystem with two entries where only the second image
exists: entry one fails at `calculateSize`, entry two is unaffected. -/
def oneMissingImageFs : FS where
  keypair := some [1, 2, 3]
  catalogDir := some twoEntries
  images := [("img-b.jpg", 7)]

/-- The same filesystem with the first image restored. -/
def bothImagesFs : FS where
  keypair := some [1, 2, 3]
  catalogDir := some twoEntries
  images := [("img-a.jpg", 4), ("img-b.jpg", 7)]

/-- A seven-entry catalog listing (the spec's example: 7 entries, chunk
size 3). -/
def sevenEntries : List (String × Except String NftConfig) :=
  [("n1.json", .ok demoNft), ("n2.json", .ok demoNft), ("n3.json", .ok demoNft),
   ("n4.json", .ok demoNft), ("n5.json", .ok demoNft), ("n6.json", .ok demoNft),
   ("n7.json", .ok demoNft)]

/-- A filesystem holding the seven-entry catalog. -/
def sevenFs : FS where
  keypair := some [1, 2, 3]
  catalogDir := some sevenEntries
  images := []

/-- A catalog whose first entry is malformed and second is well-formed. -/
def mixedEntries : List (String × Except String NftConfig) :=
  [("bad.json", .error "Unexpected end of JSON input"), ("a.json", .ok demoNft)]

/-- A filesystem holding the mixed catalog. -/
def mixedFs : FS where
  keypair := some [1, 2, 3]
  catalogDir := some mixedEntries
  images := [("img-a.jpg", 4)]

/-- An environment whose storage-network upload call always errors. -/
def failUploadEnv : TurboEnv :=
  { demoEnv with uploadResponse := fun _ _ => .error "upload rejected" }

/-- A catalog entry with a nonzero royalty override of 7 percent. -/
def royaltyNft7 : NftConfig := { demoNft with royaltyPercentage := some 7 }

/-! ### Helper lemmas -/

/-- The chunks of src line 143 concatenate back to the full listing. -/
theorem chunksOf_flatten {α : Type} (c : Nat) (l : List α) :
    (chunksOf c l).flatten = l := by
  generalize hn : l.length = n
  induction n using Nat.strong_induction_on generalizing l with
  | _ n ih =>
    cases l with
    | nil => simp [chunksOf]
    | cons x xs =>
      subst hn
      rw [chunksOf]
      simp only [List.flatten_cons]
      rw [ih ((xs.drop (c - 1)).length) (by simp; omega) _ rfl]
      simp [List.take_append_drop]

/-- For a positive chunk size the loop of src line 142 executes
`⌈length / c⌉` times. -/
theorem chunksOf_length {α : Type} (c : Nat) (hc : 0 < c) (l : List α) :
    (chunksOf c l).length = (l.length + c - 1) / c := by
  generalize hn : l.length = n
  induction n using Nat.strong_induction_on generalizing l with
  | _ n ih =>
    cases l with
    | nil =>
      have h0 : n = 0 := by simpa using hn.symm
      subst h0
      have he : chunksOf c ([] : List α) = [] := by rw [chunksOf]
      rw [he]
      simp only [List.length_nil]
      rw [Nat.div_eq_of_lt (by omega)]
    | cons x xs =>
      subst hn
      rw [chunksOf]
      simp only [List.length_cons]
      rw [ih ((xs.drop (c - 1)).length) (by simp; omega) _ rfl]
      simp only [List.length_drop]
      rcases le_or_lt (c - 1) xs.length with h | h
      · have hinner : xs.length - (c - 1) + c - 1 = xs.length := by omega
        have hr : xs.length + 1 + c - 1 = xs.length + c := by omega
        rw [hinner, hr, Nat.add_div_right _ hc]
      · have hr : xs.length + 1 + c - 1 = xs.length + c := by omega
        rw [hr, Nat.add_div_right _ hc, Nat.div_eq_of_lt (by omega),
          Nat.div_eq_of_lt (by omega)]

/-- When startup succeeds, the batch report is one `mintItem` outcome per
catalog entry, in catalog order. -/
theorem batch_results (cfg : Config) (env : TurboEnv) (fs : FS)
    (k : List Nat) (entries : List (String × Except String NftConfig))
    (hkey : fs.keypair = some k) (hcat : fs.catalogDir = some entries) :
    (batchMintNFTs cfg env fs).1 =
      .ok (entries.map fun e => (mintItem cfg env fs e.1 e.2).1) := by
  unfold batchMintNFTs
  rw [hkey, hcat]
  simp only [processChunk]
  conv_rhs => rw [← chunksOf_flatten cfg.BATCH_SIZE entries, List.map_flatten]

/-- When startup succeeds, the batch trace is the concatenation of the
per-item traces, in catalog order. -/
theorem batch_trace (cfg : Config) (env : TurboEnv) (fs : FS)
    (k : List Nat) (entries : List (String × Except String NftConfig))
    (hkey : fs.keypair = some k) (hcat : fs.catalogDir = some entries) :
    (batchMintNFTs cfg env fs).2 =
      (entries.map fun e => (mintItem cfg env fs e.1 e.2).2).flatten := by
  unfold batchMintNFTs
  rw [hkey, hcat]
  simp only [processChunk]
  conv_rhs => rw [← chunksOf_flatten cfg.BATCH_SIZE entries, List.map_flatten,
    List.flatten_flatten, List.map_map]
  rfl

/-- In simulation mode `mintSingleNFT` makes no network call and returns
the simulated outcome. -/
theorem mintSingleNFT_sim (cfg : Config) (env : TurboEnv) (fs : FS)
    (nft : NftConfig) (hsim : cfg.IS_SIMULATION = true) :
    mintSingleNFT cfg env fs nft =
      (.ok (.simulated nft.name env.signerKey), []) := by
  simp [mintSingleNFT, uploadFile, hsim]

/-- A catalog file that does not parse is caught at the item boundary. -/
theorem mintItem_parse_error (cfg : Config) (env : TurboEnv) (fs : FS)
    (file e : String) :
    mintItem cfg env fs file (.error e) = (.failed file e, []) := rfl

/-- An error escaping `mintSingleNFT` is caught at the item boundary and
becomes the failed outcome with the source filename and the message. -/
theorem mintItem_mint_error (cfg : Config) (env : TurboEnv) (fs : FS)
    (file : String) (nft : NftConfig) (e : String)
    (h : (mintSingleNFT cfg env fs nft).1 = .error e) :
    (mintItem cfg env fs file (.ok nft)).1 = .failed file e := by
  simp only [mintItem]
  cases hm : mintSingleNFT cfg env fs nft with
  | mk r tr =>
    rw [hm] at h
    cases r with
    | error e2 => simp at h; subst h; simp
    | ok v => simp at h

/-- A successful `mintSingleNFT` run passes its outcome through `mintItem`. -/
theorem mintItem_mint_ok (cfg : Config) (env : TurboEnv) (fs : FS)
    (file : String) (nft : NftConfig) (out : MintOutcome)
    (h : (mintSingleNFT cfg env fs nft).1 = .ok out) :
    (mintItem cfg env fs file (.ok nft)).1 = out := by
  simp only [mintItem]
  cases hm : mintSingleNFT cfg env fs nft with
  | mk r tr =>
    rw [hm] at h
    cases r with
    | error e2 => simp at h
    | ok v => simp at h; subst h; simp

/-- In live mode with a present image, the `uploadFile` trace is: price
query, balance query, the top-up pair when the balance is short, then the
upload call — whatever the upload response is. -/
theorem uploadFile_live_trace (cfg : Config) (env : TurboEnv) (fs : FS)
    (p ct : String) (sz : Nat)
    (hlive : cfg.IS_SIMULATION = false)
    (hsz : calculateSize fs p = .ok sz) :
    (uploadFile cfg env fs p ct).2 =
      [NetEvent.getUploadCost sz, NetEvent.getBalance] ++
      (if env.balance < env.uploadCost sz then
        [NetEvent.getWincForToken 1000000000,
         NetEvent.topUp (topUpAmount (env.uploadCost sz - env.balance) env.wincForOneSol)]
       else []) ++ [NetEvent.upload (.bytes sz) ct] := by
  unfold uploadFile
  rw [hlive, hsz]
  simp only [Bool.false_eq_true, if_false]
  cases env.uploadResponse (.bytes sz) ct <;> rfl

/-- In live mode with a missing image, `uploadFile` raises the `ENOENT`
error before any network call. -/
theorem uploadFile_missing (cfg : Config) (env : TurboEnv) (fs : FS)
    (p ct : String)
    (hlive : cfg.IS_SIMULATION = false)
    (hmiss : fs.images.lookup p = none) :
    uploadFile cfg env fs p ct = (.error (enoent p), []) := by
  unfold uploadFile calculateSize
  rw [hlive, hmiss]
  rfl

/-- In live mode a missing image makes `mintSingleNFT` fail with the
`ENOENT` message, with no network call. -/
theorem mintSingleNFT_missing_image (cfg : Config) (env : TurboEnv) (fs : FS)
    (nft : NftConfig)
    (hlive : cfg.IS_SIMULATION = false)
    (hmiss : fs.images.lookup nft.imagePath = none) :
    mintSingleNFT cfg env fs nft = (.error (enoent nft.imagePath), []) := by
  unfold mintSingleNFT
  rw [uploadFile_missing cfg env fs nft.imagePath "image/jpeg" hlive hmiss]

/-- The `ENOENT` message is never empty. -/
theorem enoent_ne_empty (p : String) : enoent p ≠ "" := by
  unfold enoent
  intro h
  have h2 := congrArg String.length h
  rw [String.length_append] at h2
  have e1 : ("ENOENT: no such file or directory, stat ").length = 40 := rfl
  have e2 : ("" : String).length = 0 := rfl
  rw [e1, e2] at h2
  omega

/-- `mintSingleNFT` touches the filesystem only through its own entry's
image path. -/
theorem mintSingleNFT_images_congr (cfg : Config) (env : TurboEnv)
    (fs fs2 : FS) (nft : NftConfig)
    (h : fs2.images.lookup nft.imagePath = fs.images.lookup nft.imagePath) :
    mintSingleNFT cfg env fs2 nft = mintSingleNFT cfg env fs nft := by
  unfold mintSingleNFT uploadFile calculateSize
  rw [h]

/-- Inversion of a successful live-mode `mintSingleNFT` run: the image was
statted, both uploads were acknowledged, the creation succeeded, and the
trace is exactly the image-upload trace, the direct metadata upload and
the creation event. -/
theorem mintSingleNFT_live_ok_inv (cfg : Config) (env : TurboEnv) (fs : FS)
    (nft : NftConfig) (out : MintOutcome)
    (hlive : cfg.IS_SIMULATION = false)
    (hok : (mintSingleNFT cfg env fs nft).1 = .ok out) :
    ∃ sz idA idM,
      calculateSize fs nft.imagePath = .ok sz ∧
      env.uploadResponse (.bytes sz) "image/jpeg" = .ok idA ∧
      env.uploadResponse
        (.doc (buildMetadata nft ("https://arweave.net/" ++ jsTemplate idA)))
        "application/json" = .ok idM ∧
      (mintSingleNFT cfg env fs nft).2 =
        ([NetEvent.getUploadCost sz, NetEvent.getBalance] ++
         (if env.balance < env.uploadCost sz then
            [NetEvent.getWincForToken 1000000000,
             NetEvent.topUp (topUpAmount (env.uploadCost sz - env.balance) env.wincForOneSol)]
          else []) ++ [NetEvent.upload (.bytes sz) "image/jpeg"]) ++
        [NetEvent.upload
          (.doc (buildMetadata nft ("https://arweave.net/" ++ jsTemplate idA)))
          "application/json"] ++
        [NetEvent.createAsset nft.name
          ("https://arweave.net/" ++ jsTemplate idM)
          (royaltyBasisPoints nft.royaltyPercentage cfg.ROYALTY_PERCENTAGE)] := by
  cases hsz : calculateSize fs nft.imagePath with
  | error e =>
    exfalso
    have hu : uploadFile cfg env fs nft.imagePath "image/jpeg" = (.error e, []) := by
      unfold uploadFile
      rw [hlive, hsz]
      rfl
    unfold mintSingleNFT at hok
    rw [hu] at hok
    simp at hok
  | ok sz =>
    cases hresp : env.uploadResponse (.bytes sz) "image/jpeg" with
    | error e =>
      exfalso
      have hu : (uploadFile cfg env fs nft.imagePath "image/jpeg").1 = .error e := by
        unfold uploadFile
        rw [hlive, hsz]
        simp only [Bool.false_eq_true, if_false]
        rw [hresp]
      unfold mintSingleNFT at hok
      cases hup : uploadFile cfg env fs nft.imagePath "image/jpeg" with
      | mk r tr =>
        rw [hup] at hu hok
        cases r with
        | error e2 => simp at hok
        | ok v => simp at hu
    | ok idA =>
      have hup : uploadFile cfg env fs nft.imagePath "image/jpeg" =
          (.ok ("https://arweave.net/" ++ jsTemplate idA),
           [NetEvent.getUploadCost sz, NetEvent.getBalance] ++
           (if env.balance < env.uploadCost sz then
              [NetEvent.getWincForToken 1000000000,
               NetEvent.topUp (topUpAmount (env.uploadCost sz - env.balance) env.wincForOneSol)]
            else []) ++ [NetEvent.upload (.bytes sz) "image/jpeg"]) := by
        unfold uploadFile
        rw [hlive, hsz]
        simp only [Bool.false_eq_true, if_false]
        rw [hresp]
      cases hmeta : env.uploadResponse
          (.doc (buildMetadata nft ("https://arweave.net/" ++ jsTemplate idA)))
          "application/json" with
      | error e =>
        exfalso
        unfold mintSingleNFT at hok
        rw [hup] at hok
        simp only [hlive, Bool.false_eq_true, if_false, hmeta] at hok
        simp at hok
      | ok idM =>
        refine ⟨sz, idA, idM, rfl, hresp, hmeta, ?_⟩
        unfold mintSingleNFT
        rw [hup]
        simp only [hlive, Bool.false_eq_true, if_false, hmeta]
        cases hcr : env.createResult nft.name
            ("https://arweave.net/" ++ jsTemplate idM)
            (royaltyBasisPoints nft.royaltyPercentage cfg.ROYALTY_PERCENTAGE) with
        | error e =>
          exfalso
          unfold mintSingleNFT at hok
          rw [hup] at hok
          simp only [hlive, Bool.false_eq_true, if_false, hmeta, hcr] at hok
          simp at hok
        | ok u => simp

/-! ### Claim theorems -/

/-- C2, counterexample: a missing key file is a fatal startup failure (the
batch rejects with `ENOENT` before any chunk runs), yet the process exit
code is 0, because `batchMintNFTs().catch(console.error)` handles the
rejection.  This refutes "the process exits non-zero when a fatal startup
failure occurs". -/
theorem C2_counterexample :
    (batchMintNFTs CONFIG demoEnv noKeyFs).1 = .error (enoent "./keypair.json") ∧
    processExitCode CONFIG demoEnv noKeyFs = 0 := ⟨rfl, rfl⟩

/-- C2, amended: the process never exits non-zero.  Fatal startup failures
reject the batch promise, but the trailing `.catch(console.error)` handles
the rejection and only logs it, so the process always terminates with exit
code 0; per-item failures never change the exit code either. -/
theorem C2_theorem (cfg : Config) (env : TurboEnv) (fs : FS) :
    processExitCode cfg env fs = 0 := by
  unfold processExitCode
  split <;> rfl

/-- C3: for a positive configured chunk size, the batch processes exactly
`⌈N / C⌉` chunks, and the written report holds exactly one outcome per
catalog entry, whatever each outcome is. -/
theorem C3_theorem (cfg : Config) (env : TurboEnv) (fs : FS)
    (k : List Nat) (entries : List (String × Except String NftConfig))
    (hc : 0 < cfg.BATCH_SIZE)
    (hkey : fs.keypair = some k) (hcat : fs.catalogDir = some entries) :
    (chunksOf cfg.BATCH_SIZE entries).length =
      (entries.length + cfg.BATCH_SIZE - 1) / cfg.BATCH_SIZE ∧
    (batchMintNFTs cfg env fs).1 =
      .ok (entries.map fun p => (mintItem cfg env fs p.1 p.2).1) ∧
    (entries.map fun p => (mintItem cfg env fs p.1 p.2).1).length = entries.length :=
  ⟨chunksOf_length cfg.BATCH_SIZE hc entries,
   batch_results cfg env fs k entries hkey hcat, by simp⟩

/-- C3, witness: the spec's example catalog of 7 entries with chunk size 3
gives 3 chunks and a 7-outcome report. -/
theorem C3_witness :
    0 < CONFIG.BATCH_SIZE ∧
    sevenFs.keypair = some [1, 2, 3] ∧
    sevenFs.catalogDir = some sevenEntries ∧
    (chunksOf CONFIG.BATCH_SIZE sevenEntries).length =
      (sevenEntries.length + CONFIG.BATCH_SIZE - 1) / CONFIG.BATCH_SIZE ∧
    (chunksOf CONFIG.BATCH_SIZE sevenEntries).length = 3 ∧
    (sevenEntries.map fun p => (mintItem CONFIG demoEnv sevenFs p.1 p.2).1).length = 7 :=
  ⟨by decide, rfl, rfl,
   (C3_theorem CONFIG demoEnv sevenFs [1, 2, 3] sevenEntries (by decide) rfl rfl).1,
   by simp [CONFIG, chunksOf, sevenEntries],
   by simp [sevenEntries]⟩

/-- C4: a per-item error — a catalog file that does not parse, or any
error escaping `mintSingleNFT` (unreadable image, upload failure,
transaction failure) — is caught at the item boundary and becomes a
`failed` outcome carrying the source filename and the message, while the
batch still reports exactly one outcome for every entry, each computed
from its own entry alone. -/
theorem C4_theorem (cfg : Config) (env : TurboEnv) (fs : FS)
    (k : List Nat) (entries : List (String × Except String NftConfig))
    (i : Nat) (file e : String) (parsed : Except String NftConfig)
    (_hc : 0 < cfg.BATCH_SIZE)
    (hkey : fs.keypair = some k) (hcat : fs.catalogDir = some entries)
    (hi : entries[i]? = some (file, parsed))
    (herr : parsed = .error e ∨
      ∃ nft, parsed = .ok nft ∧ (mintSingleNFT cfg env fs nft).1 = .error e) :
    (batchMintNFTs cfg env fs).1 =
      .ok (entries.map fun p => (mintItem cfg env fs p.1 p.2).1) ∧
    (entries.map fun p => (mintItem cfg env fs p.1 p.2).1).length = entries.length ∧
    (entries.map fun p => (mintItem cfg env fs p.1 p.2).1)[i]? =
      some (.failed file e) := by
  refine ⟨batch_results cfg env fs k entries hkey hcat, by simp, ?_⟩
  rw [List.getElem?_map, hi]
  rcases herr with h | ⟨nft, hp, hm⟩
  · subst h
    simp [mintItem_parse_error]
  · subst hp
    simp only [Option.map_some']
    rw [mintItem_mint_error cfg env fs file nft e hm]

/-- C4, witness: a catalog whose first file does not parse still yields a
full report, with a `failed` outcome for the malformed file. -/
theorem C4_witness :
    0 < CONFIG.BATCH_SIZE ∧
    mixedFs.keypair = some [1, 2, 3] ∧
    mixedFs.catalogDir = some mixedEntries ∧
    mixedEntries[0]? = some ("bad.json", .error "Unexpected end of JSON input") ∧
    ((batchMintNFTs CONFIG demoEnv mixedFs).1 =
      .ok (mixedEntries.map fun p => (mintItem CONFIG demoEnv mixedFs p.1 p.2).1) ∧
    (mixedEntries.map fun p => (mintItem CONFIG demoEnv mixedFs p.1 p.2).1).length =
      mixedEntries.length ∧
    (mixedEntries.map fun p => (mintItem CONFIG demoEnv mixedFs p.1 p.2).1)[0]? =
      some (.failed "bad.json" "Unexpected end of JSON input")) :=
  ⟨by decide, rfl, rfl, rfl,
   C4_theorem CONFIG demoEnv mixedFs [1, 2, 3] mixedEntries 0 "bad.json"
     "Unexpected end of JSON input" (.error "Unexpected end of JSON input")
     (by decide) rfl rfl rfl (Or.inl rfl)⟩

/-- C5, counterexample: in simulation mode a catalog file that does not
parse still yields a `failed` outcome, so not every produced outcome has
status `simulated`. -/
theorem C5_counterexample :
    CONFIG.IS_SIMULATION = true ∧
    (batchMintNFTs CONFIG demoEnv badJsonFs).1 =
      .ok [.failed "bad.json" "Unexpected token u in JSON at position 0"] ∧
    statusOf (.failed "bad.json" "Unexpected token u in JSON at position 0") = "failed" := by
  refine ⟨rfl, ?_, rfl⟩
  rw [batch_results CONFIG demoEnv badJsonFs [1, 2, 3]
    [("bad.json", .error "Unexpected token u in JSON at position 0")] rfl rfl]
  rfl

/-- C5, amended: in simulation mode the batch makes no network call and
always terminates successfully, writing one outcome per entry; every entry
whose file parses gets a `simulated` outcome, but a file that does not
parse still yields a `failed` outcome. -/
theorem C5_theorem (cfg : Config) (env : TurboEnv) (fs : FS)
    (k : List Nat) (entries : List (String × Except String NftConfig))
    (_hc : 0 < cfg.BATCH_SIZE) (hsim : cfg.IS_SIMULATION = true)
    (hkey : fs.keypair = some k) (hcat : fs.catalogDir = some entries) :
    (batchMintNFTs cfg env fs).1 =
      .ok (entries.map fun p => (mintItem cfg env fs p.1 p.2).1) ∧
    (batchMintNFTs cfg env fs).2 = [] ∧
    ∀ p ∈ entries, ∀ nft, p.2 = .ok nft →
      (mintItem cfg env fs p.1 p.2).1 = .simulated nft.name env.signerKey := by
  refine ⟨batch_results cfg env fs k entries hkey hcat, ?_, ?_⟩
  · rw [batch_trace cfg env fs k entries hkey hcat]
    rw [List.flatten_eq_nil_iff]
    intro l hl
    rw [List.mem_map] at hl
    obtain ⟨p, hp, rfl⟩ := hl
    cases hparse : p.2 with
    | error e => simp [mintItem, hparse]
    | ok nft => simp [mintItem, hparse, mintSingleNFT_sim cfg env fs nft hsim]
  · intro p hp nft hparse
    rw [hparse]
    exact mintItem_mint_ok cfg env fs p.1 nft _
      (by rw [mintSingleNFT_sim cfg env fs nft hsim])

/-- C5, witness: the simulation run on the demo catalog makes no network
call. -/
theorem C5_witness :
    0 < CONFIG.BATCH_SIZE ∧ CONFIG.IS_SIMULATION = true ∧
    demoFs.keypair = some [1, 2, 3] ∧
    demoFs.catalogDir = some [("a.json", .ok demoNft)] ∧
    (batchMintNFTs CONFIG demoEnv demoFs).2 = [] :=
  ⟨by decide, rfl, rfl, rfl,
   (C5_theorem CONFIG demoEnv demoFs [1, 2, 3] [("a.json", .ok demoNft)]
     (by decide) rfl rfl rfl).2.1⟩

/-- C6, counterexample: when the storage network acknowledges the upload
but returns no identifier, `uploadFile` does not fail — it returns the URI
`https://arweave.net/undefined`.  This refutes "upload fails whenever the
call returns no usable identifier". -/
theorem C6_counterexample :
    noIdEnv.uploadResponse (.bytes 4) "image/jpeg" = .ok none ∧
    (uploadFile liveCfg noIdEnv demoFs "img-a.jpg" "image/jpeg").1 =
      .ok "https://arweave.net/undefined" := ⟨rfl, rfl⟩

/-- C6, amended: in live mode, when the storage-network upload call
errors, `uploadFile` fails with that error after a single upload attempt
(no retry), and the failure propagates unchanged to the Mint Executor
`mintSingleNFT`; but a call that succeeds with no identifier does not
fail. -/
theorem C6_theorem (cfg : Config) (env : TurboEnv) (fs : FS)
    (nft : NftConfig) (sz : Nat) (e : String)
    (hlive : cfg.IS_SIMULATION = false)
    (hsz : calculateSize fs nft.imagePath = .ok sz)
    (hresp : env.uploadResponse (.bytes sz) "image/jpeg" = .error e) :
    (uploadFile cfg env fs nft.imagePath "image/jpeg").1 = .error e ∧
    ((uploadFile cfg env fs nft.imagePath "image/jpeg").2.filter isUploadEvent).length = 1 ∧
    (mintSingleNFT cfg env fs nft).1 = .error e := by
  have h1 : (uploadFile cfg env fs nft.imagePath "image/jpeg").1 = .error e := by
    unfold uploadFile
    rw [hlive, hsz]
    simp only [Bool.false_eq_true, if_false]
    rw [hresp]
  refine ⟨h1, ?_, ?_⟩
  · rw [uploadFile_live_trace cfg env fs nft.imagePath "image/jpeg" sz hlive hsz]
    by_cases hb : env.balance < env.uploadCost sz <;>
      simp [hb, List.filter_append, isUploadEvent]
  · unfold mintSingleNFT
    cases hup : uploadFile cfg env fs nft.imagePath "image/jpeg" with
    | mk r tr =>
      rw [hup] at h1
      cases r with
      | error e2 => simp at h1; subst h1; simp
      | ok v => simp at h1

/-- C6, witness: a rejected image upload propagates its message through
`uploadFile` and `mintSingleNFT` without a retry. -/
theorem C6_witness :
    liveCfg.IS_SIMULATION = false ∧
    calculateSize demoFs demoNft.imagePath = .ok 4 ∧
    failUploadEnv.uploadResponse (.bytes 4) "image/jpeg" = .error "upload rejected" ∧
    ((uploadFile liveCfg failUploadEnv demoFs demoNft.imagePath "image/jpeg").1 =
        .error "upload rejected" ∧
      ((uploadFile liveCfg failUploadEnv demoFs demoNft.imagePath
        "image/jpeg").2.filter isUploadEvent).length = 1 ∧
      (mintSingleNFT liveCfg failUploadEnv demoFs demoNft).1 = .error "upload rejected") :=
  ⟨rfl, rfl, rfl,
   C6_theorem liveCfg failUploadEnv demoFs demoNft 4 "upload rejected" rfl rfl rfl⟩

/-- C7, counterexample: in simulation mode an entry whose image file does
not exist is not failed — the image is never read, and the outcome is
`simulated`.  This refutes the unconditional claim. -/
theorem C7_counterexample :
    missingImageFs.images.lookup demoNft.imagePath = none ∧
    (batchMintNFTs CONFIG demoEnv missingImageFs).1 =
      .ok [.simulated "Asset One" "DEMOKEY"] ∧
    statusOf (.simulated "Asset One" "DEMOKEY") ≠ "failed" := by
  refine ⟨rfl, ?_, by decide⟩
  rw [batch_results CONFIG demoEnv missingImageFs [1, 2, 3]
    [("a.json", .ok demoNft)] rfl rfl]
  rfl

/-- C7, amended: in live mode, an entry whose image file does not exist
fails at `calculateSize` and is reported as `failed` with its source
filename and the non-empty `ENOENT` message, while every other entry's
outcome is computed from its own entry alone: it is unchanged under any
filesystem agreeing on that entry's image. -/
theorem C7_theorem (cfg : Config) (env : TurboEnv) (fs : FS)
    (k : List Nat) (entries : List (String × Except String NftConfig))
    (i : Nat) (file : String) (nft : NftConfig)
    (_hc : 0 < cfg.BATCH_SIZE) (hlive : cfg.IS_SIMULATION = false)
    (hkey : fs.keypair = some k) (hcat : fs.catalogDir = some entries)
    (hi : entries[i]? = some (file, .ok nft))
    (hmiss : fs.images.lookup nft.imagePath = none) :
    (batchMintNFTs cfg env fs).1 =
      .ok (entries.map fun p => (mintItem cfg env fs p.1 p.2).1) ∧
    (entries.map fun p => (mintItem cfg env fs p.1 p.2).1)[i]? =
      some (.failed file (enoent nft.imagePath)) ∧
    enoent nft.imagePath ≠ "" ∧
    (∀ fs2 : FS, ∀ j, j ≠ i →
      (∀ p2, entries[j]? = some p2 →
        ∀ nft2, p2.2 = .ok nft2 →
          fs2.images.lookup nft2.imagePath = fs.images.lookup nft2.imagePath) →
      (entries.map fun p => (mintItem cfg env fs2 p.1 p.2).1)[j]? =
        (entries.map fun p => (mintItem cfg env fs p.1 p.2).1)[j]?) := by
  refine ⟨batch_results cfg env fs k entries hkey hcat, ?_,
    enoent_ne_empty nft.imagePath, ?_⟩
  · rw [List.getElem?_map, hi]
    simp only [Option.map_some']
    rw [mintItem_mint_error cfg env fs file nft (enoent nft.imagePath)
      (by rw [mintSingleNFT_missing_image cfg env fs nft hlive hmiss])]
  · intro fs2 j hj hagree
    rw [List.getElem?_map, List.getElem?_map]
    cases hjth : entries[j]? with
    | none => rfl
    | some p2 =>
      simp only [Option.map_some']
      have hag := hagree p2 hjth
      cases hparse : p2.2 with
      | error e => simp [mintItem, hparse]
      | ok nft2 =>
        simp [mintItem, hparse,
          mintSingleNFT_images_congr cfg env fs fs2 nft2 (hag nft2 hparse)]

/-- C7, witness: in the live two-entry catalog with the first image
missing, the first outcome is the `ENOENT` failure. -/
theorem C7_witness :
    0 < liveCfg.BATCH_SIZE ∧ liveCfg.IS_SIMULATION = false ∧
    oneMissingImageFs.keypair = some [1, 2, 3] ∧
    oneMissingImageFs.catalogDir = some twoEntries ∧
    twoEntries[0]? = some ("a.json", .ok demoNft) ∧
    oneMissingImageFs.images.lookup demoNft.imagePath = none ∧
    ((batchMintNFTs liveCfg demoEnv oneMissingImageFs).1 =
      .ok (twoEntries.map fun p => (mintItem liveCfg demoEnv oneMissingImageFs p.1 p.2).1) ∧
    (twoEntries.map fun p => (mintItem liveCfg demoEnv oneMissingImageFs p.1 p.2).1)[0]? =
      some (.failed "a.json" (enoent demoNft.imagePath)) ∧
    enoent demoNft.imagePath ≠ "") :=
  ⟨by decide, rfl, rfl, rfl, rfl, rfl,
   (C7_theorem liveCfg demoEnv oneMissingImageFs [1, 2, 3] twoEntries 0 "a.json"
     demoNft (by decide) rfl rfl rfl rfl rfl).1,
   (C7_theorem liveCfg demoEnv oneMissingImageFs [1, 2, 3] twoEntries 0 "a.json"
     demoNft (by decide) rfl rfl rfl rfl rfl).2.1,
   (C7_theorem liveCfg demoEnv oneMissingImageFs [1, 2, 3] twoEntries 0 "a.json"
     demoNft (by decide) rfl rfl rfl rfl rfl).2.2.1⟩

/-- C1, counterexample: a successful live-mode mint performs the Funding
Manager check (price query and balance query) before the image upload
only; the metadata upload is issued directly, so the trace fails the
"checked before each upload" predicate. -/
theorem C1_counterexample :
    (mintSingleNFT liveCfg demoEnv demoFs demoNft).1 =
      .ok (.success "Asset One" "DEMOKEY" "https://arweave.net/demoid") ∧
    checkedBeforeEachUpload (mintSingleNFT liveCfg demoEnv demoFs demoNft).2 = false := by
  constructor <;> rfl

/-- C1, amended: in live mode a successful `mintSingleNFT` performs two
real uploads (image and metadata) but only one Funding Manager check — a
single upload-price query and a single balance query, both belonging to
the image upload; the metadata upload at src lines 93-98 is issued with no
funding check. -/
theorem C1_theorem (cfg : Config) (env : TurboEnv) (fs : FS)
    (nft : NftConfig) (out : MintOutcome)
    (hlive : cfg.IS_SIMULATION = false)
    (hok : (mintSingleNFT cfg env fs nft).1 = .ok out) :
    ((mintSingleNFT cfg env fs nft).2.filter isUploadEvent).length = 2 ∧
    ((mintSingleNFT cfg env fs nft).2.filter isCostQuery).length = 1 ∧
    ((mintSingleNFT cfg env fs nft).2.filter isBalanceQuery).length = 1 := by
  obtain ⟨sz, idA, idM, hsz, hrespA, hrespM, htr⟩ :=
    mintSingleNFT_live_ok_inv cfg env fs nft out hlive hok
  rw [htr]
  by_cases hb : env.balance < env.uploadCost sz <;>
    simp [hb, List.filter_append, List.filter, isUploadEvent, isCostQuery, isBalanceQuery]

/-- C1, witness: the demo live-mode run succeeds and its trace has two
uploads but one funding check. -/
theorem C1_witness :
    liveCfg.IS_SIMULATION = false ∧
    (mintSingleNFT liveCfg demoEnv demoFs demoNft).1 =
      .ok (.success "Asset One" "DEMOKEY" "https://arweave.net/demoid") ∧
    (((mintSingleNFT liveCfg demoEnv demoFs demoNft).2.filter isUploadEvent).length = 2 ∧
     ((mintSingleNFT liveCfg demoEnv demoFs demoNft).2.filter isCostQuery).length = 1 ∧
     ((mintSingleNFT liveCfg demoEnv demoFs demoNft).2.filter isBalanceQuery).length = 1) :=
  ⟨rfl, rfl,
   C1_theorem liveCfg demoEnv demoFs demoNft
     (.success "Asset One" "DEMOKEY" "https://arweave.net/demoid") rfl rfl⟩

/-- C8: in live mode with a positive exchange rate, whenever the balance
is below the upload price a top-up for `topUpAmount` is issued, and that
amount converted back through the same exchange rate covers at least the
original deficit (the ceiling rounds up, never down); when the balance
covers the price, no top-up call appears in the trace. -/
theorem C8_theorem (cfg : Config) (env : TurboEnv) (fs : FS)
    (p ct : String) (sz : Nat)
    (hlive : cfg.IS_SIMULATION = false)
    (hsz : calculateSize fs p = .ok sz)
    (hr : 0 < env.wincForOneSol) :
    (env.balance < env.uploadCost sz →
      NetEvent.topUp (topUpAmount (env.uploadCost sz - env.balance) env.wincForOneSol)
          ∈ (uploadFile cfg env fs p ct).2 ∧
      env.uploadCost sz - env.balance ≤
        ((topUpAmount (env.uploadCost sz - env.balance) env.wincForOneSol : ℤ) : ℚ) *
          env.wincForOneSol / 1000000000) ∧
    (env.uploadCost sz ≤ env.balance →
      (uploadFile cfg env fs p ct).2.all (fun ev => !isTopUpEvent ev) = true) := by
  have htr := uploadFile_live_trace cfg env fs p ct sz hlive hsz
  constructor
  · intro hb
    constructor
    · rw [htr]
      simp [hb]
    · have hr0 : env.wincForOneSol ≠ 0 := ne_of_gt hr
      have h0 : env.uploadCost sz - env.balance =
          (env.uploadCost sz - env.balance) / env.wincForOneSol * 1000000000 *
            env.wincForOneSol / 1000000000 := by
        field_simp
      calc env.uploadCost sz - env.balance =
          (env.uploadCost sz - env.balance) / env.wincForOneSol * 1000000000 *
            env.wincForOneSol / 1000000000 := h0
        _ ≤ ((topUpAmount (env.uploadCost sz - env.balance) env.wincForOneSol : ℤ) : ℚ) *
              env.wincForOneSol / 1000000000 := by
            gcongr
            exact Int.le_ceil _
  · intro hble
    have hb : ¬ env.balance < env.uploadCost sz := not_lt.mpr hble
    rw [htr]
    simp [hb, isTopUpEvent]

/-- C8, witness: price 10, balance 4, rate 2 — the top-up branch is taken
and the rounded top-up covers the deficit. -/
theorem C8_witness :
    liveCfg.IS_SIMULATION = false ∧
    calculateSize demoFs "img-a.jpg" = .ok 4 ∧
    (0 : ℚ) < lowBalanceEnv.wincForOneSol ∧
    lowBalanceEnv.balance < lowBalanceEnv.uploadCost 4 ∧
    (NetEvent.topUp (topUpAmount (lowBalanceEnv.uploadCost 4 - lowBalanceEnv.balance)
        lowBalanceEnv.wincForOneSol)
        ∈ (uploadFile liveCfg lowBalanceEnv demoFs "img-a.jpg" "image/jpeg").2 ∧
      lowBalanceEnv.uploadCost 4 - lowBalanceEnv.balance ≤
        ((topUpAmount (lowBalanceEnv.uploadCost 4 - lowBalanceEnv.balance)
            lowBalanceEnv.wincForOneSol : ℤ) : ℚ) *
          lowBalanceEnv.wincForOneSol / 1000000000) :=
  ⟨rfl, rfl, by decide, by decide,
   (C8_theorem liveCfg lowBalanceEnv demoFs "img-a.jpg" "image/jpeg" 4
     rfl rfl (by decide)).1 (by decide)⟩

/-- C9, counterexample: an entry that supplies the royalty percentage 0
gets basis points 500 (the default 5 times 100) attached to its creation
transaction, not 0 times 100. -/
theorem C9_counterexample :
    zeroRoyaltyNft.royaltyPercentage = some 0 ∧
    (mintSingleNFT liveCfg demoEnv demoFs zeroRoyaltyNft).2.filter isCreateEvent =
      [NetEvent.createAsset "Asset One" "https://arweave.net/demoid" 500] ∧
    (500 : Int) ≠ 0 * 100 := by
  refine ⟨rfl, rfl, by decide⟩

/-- C9, amended: the royalty basis points attached to the creation
transaction are `royaltyBasisPoints`, which equals the supplied percentage
times 100 whenever that percentage is nonzero (7 yields 700), and the
default percentage times 100 when the entry supplies none; a supplied 0 is
falsy in JavaScript and also falls back to the default. -/
theorem C9_theorem (cfg : Config) (env : TurboEnv) (fs : FS)
    (nft : NftConfig) (out : MintOutcome)
    (hlive : cfg.IS_SIMULATION = false)
    (hok : (mintSingleNFT cfg env fs nft).1 = .ok out) :
    (∃ uri, (mintSingleNFT cfg env fs nft).2.filter isCreateEvent =
      [NetEvent.createAsset nft.name uri
        (royaltyBasisPoints nft.royaltyPercentage cfg.ROYALTY_PERCENTAGE)]) ∧
    (∀ v, nft.royaltyPercentage = some v → v ≠ 0 →
      royaltyBasisPoints nft.royaltyPercentage cfg.ROYALTY_PERCENTAGE = v * 100) ∧
    (nft.royaltyPercentage = none →
      royaltyBasisPoints nft.royaltyPercentage cfg.ROYALTY_PERCENTAGE =
        cfg.ROYALTY_PERCENTAGE * 100) := by
  obtain ⟨sz, idA, idM, hsz, hrespA, hrespM, htr⟩ :=
    mintSingleNFT_live_ok_inv cfg env fs nft out hlive hok
  refine ⟨⟨"https://arweave.net/" ++ jsTemplate idM, ?_⟩, ?_, ?_⟩
  · rw [htr]
    by_cases hb : env.balance < env.uploadCost sz <;>
      simp [hb, List.filter_append, List.filter, isCreateEvent]
  · intro v hv hnz
    rw [hv]
    simp [royaltyBasisPoints, hnz]
  · intro hn
    rw [hn]
    simp [royaltyBasisPoints]

/-- C9, witness: the entry supplying 7 percent yields 700 basis points on
its creation transaction. -/
theorem C9_witness :
    liveCfg.IS_SIMULATION = false ∧
    (mintSingleNFT liveCfg demoEnv demoFs royaltyNft7).1 =
      .ok (.success "Asset One" "DEMOKEY" "https://arweave.net/demoid") ∧
    royaltyNft7.royaltyPercentage = some 7 ∧
    royaltyBasisPoints royaltyNft7.royaltyPercentage liveCfg.ROYALTY_PERCENTAGE = 7 * 100 :=
  ⟨rfl, rfl, rfl,
   (C9_theorem liveCfg demoEnv demoFs royaltyNft7
     (.success "Asset One" "DEMOKEY" "https://arweave.net/demoid") rfl rfl).2.1
     7 rfl (by decide)⟩

/-- C10: a present-but-zero `royaltyPercentage` is falsy, so the creation
transaction carries `defaultRoyaltyPercentage * 100` basis points — which
is nonzero whenever the default percentage is — making an explicit
zero-royalty override impossible. -/
theorem C10_theorem (cfg : Config) (env : TurboEnv) (fs : FS)
    (nft : NftConfig) (out : MintOutcome)
    (hlive : cfg.IS_SIMULATION = false)
    (hok : (mintSingleNFT cfg env fs nft).1 = .ok out)
    (h0 : nft.royaltyPercentage = some 0)
    (hdz : cfg.ROYALTY_PERCENTAGE ≠ 0) :
    (∃ uri, (mintSingleNFT cfg env fs nft).2.filter isCreateEvent =
      [NetEvent.createAsset nft.name uri (cfg.ROYALTY_PERCENTAGE * 100)]) ∧
    cfg.ROYALTY_PERCENTAGE * 100 ≠ 0 := by
  have hbp : royaltyBasisPoints nft.royaltyPercentage cfg.ROYALTY_PERCENTAGE =
      cfg.ROYALTY_PERCENTAGE * 100 := by
    rw [h0]
    simp [royaltyBasisPoints]
  obtain ⟨sz, idA, idM, hsz, hrespA, hrespM, htr⟩ :=
    mintSingleNFT_live_ok_inv cfg env fs nft out hlive hok
  constructor
  · refine ⟨"https://arweave.net/" ++ jsTemplate idM, ?_⟩
    rw [htr, hbp]
    by_cases hb : env.balance < env.uploadCost sz <;>
      simp [hb, List.filter_append, List.filter, isCreateEvent]
  · intro h
    rcases mul_eq_zero.mp h with h1 | h2
    · exact hdz h1
    · exact absurd h2 (by decide)

/-- C10, witness: the zero-override entry is minted with 500 basis points
under the default of 5 percent. -/
theorem C10_witness :
    liveCfg.IS_SIMULATION = false ∧
    (mintSingleNFT liveCfg demoEnv demoFs zeroRoyaltyNft).1 =
      .ok (.success "Asset One" "DEMOKEY" "https://arweave.net/demoid") ∧
    zeroRoyaltyNft.royaltyPercentage = some 0 ∧
    liveCfg.ROYALTY_PERCENTAGE ≠ 0 ∧
    ((∃ uri, (mintSingleNFT liveCfg demoEnv demoFs zeroRoyaltyNft).2.filter isCreateEvent =
      [NetEvent.createAsset zeroRoyaltyNft.name uri (liveCfg.ROYALTY_PERCENTAGE * 100)]) ∧
    liveCfg.ROYALTY_PERCENTAGE * 100 ≠ 0) :=
  ⟨rfl, rfl, rfl, by decide,
   C10_theorem liveCfg demoEnv demoFs zeroRoyaltyNft
     (.success "Asset One" "DEMOKEY" "https://arweave.net/demoid")
     rfl rfl rfl (by decide)⟩
